import Mathlib

/-!
Shallow embedding of the scheduling-links-aggregator crawler core
(`crawler/fetcher.go`, `crawler/crawler.go`, `crawler/crawl.go`).

Times are modelled as `Int` Unix seconds (the Go code stores `time.Time`
values as Unix seconds in the database and compares them with `Before`,
which is a strict `<`).  The crawler database (`fetch_attemps` /
`resource_cache` tables) is modelled as lists of rows; the SQL
`ORDER BY ... DESC LIMIT 1` reads are modelled as folds picking the row
with the maximal key.  The single possible HTTP request of a
`FetchResource` call is modelled by an oracle argument
`net : Except String HttpResponse` (transport error or completed
response); header parsing done by library code (`time.Parse` for
`Expires`, `fmt.Sscanf` for `Cache-Control: max-age`) is abstracted as
parse results carried inside `HttpResponse`.
-/

namespace SchedulingLinks

/-- Row of the `fetch_attemps` table (fetcher.go `FetchAttempt`). -/
structure FetchAttempt where
  url : String
  fetchSec : Int
  statusCode : Int
deriving Repr, DecidableEq

/-- Row of the `resource_cache` table (fetcher.go `ResourceCacheEntry`). -/
structure ResourceCacheEntry where
  resourceCacheId : Nat
  url : String
  fetchSec : Int
  expiresAtSec : Int
  etag : Option String
  data : String
deriving Repr, DecidableEq

/-- The crawler database state touched by `FetchResource`. -/
structure CrawlerDb where
  fetchAttempts : List FetchAttempt
  resourceCache : List ResourceCacheEntry
deriving Repr, DecidableEq

/-- The tables created by `schema/create_crawler_database.sql` for the
crawler database.  Note that the attempt log is created as
`fetch_attempts`; no schema creates a table named `fetch_attemps`. -/
def crawlerSchemaTables : List String :=
  ["resource_cache", "known_manifests", "manifest_fetches",
   "location_fetches", "schedule_fetches", "slot_fetches", "fetch_attempts"]

/-- fetcher.go `lastFetchAttempt`: the most recent `FetchAttempt` for `url`.
The SELECT at line 170 reads
`FROM fetch_attemps` — a table that no schema creates (the schema and the
INSERT at line 190 use `fetch_attempts`) — so the query fails with a
"no such table" error on every call; `Row.Scan` returns that error, which
is not `ErrNoRows`, and the function returns `(nil, err)`.  The `.ok`
branch mirrors the row the SELECT's shape
(`WHERE url = ? ORDER BY fetch_sec DESC LIMIT 1`) would decode — `none`
for `(nil, nil)` when no row exists — and is unreachable because the
queried table is missing. -/
def lastFetchAttempt (url : String) (db : CrawlerDb) :
    Except String (Option FetchAttempt) :=
  if "fetch_attemps" ∈ crawlerSchemaTables then
    .ok ((db.fetchAttempts.filter (fun a => a.url = url)).foldl
      (fun acc a =>
        match acc with
        | none => some a
        | some b => if b.fetchSec < a.fetchSec then some a else some b)
      none)
  else
    .error "no such table: fetch_attemps"

/-- fetcher.go `latestResourceCacheEntry`: the latest-expiring cache row for
`url` (`SELECT ... WHERE url = ? ORDER BY expires_at_sec DESC LIMIT 1`). -/
def latestResourceCacheEntry (url : String) (db : CrawlerDb) :
    Option ResourceCacheEntry :=
  (db.resourceCache.filter (fun e => e.url = url)).foldl
    (fun acc e =>
      match acc with
      | none => some e
      | some b => if b.expiresAtSec < e.expiresAtSec then some e else some b)
    none

/-- fetcher.go `insertFetchAttempt`: append a row to `fetch_attempts`. -/
def insertFetchAttempt (f : FetchAttempt) (db : CrawlerDb) : CrawlerDb :=
  { db with fetchAttempts := db.fetchAttempts ++ [f] }

/-- Fresh `resource_cache_id` for an insert (sqlite `INTEGER PRIMARY KEY`
assigns max existing id + 1; rows are never deleted). -/
def nextResourceCacheId (db : CrawlerDb) : Nat :=
  (db.resourceCache.foldl (fun m e => max m e.resourceCacheId) 0) + 1

/-- fetcher.go `insertResourceCacheEntry`: append a row to `resource_cache`
(the given entry's `resourceCacheId` is ignored by the SQL insert). -/
def insertResourceCacheEntry (e : ResourceCacheEntry) (db : CrawlerDb) :
    CrawlerDb :=
  { db with resourceCache :=
      db.resourceCache ++ [{ e with resourceCacheId := nextResourceCacheId db }] }

/-- The `UPDATE resource_cache SET fetch_sec = ?, expires_at_sec = ? WHERE
resource_cache_id = ?` statement run on a 304 response. -/
def updateResourceCacheEntry (id : Nat) (fetchSec expiresAtSec : Int)
    (db : CrawlerDb) : CrawlerDb :=
  let upd := fun (e : ResourceCacheEntry) =>
    if e.resourceCacheId = id then
      { e with fetchSec := fetchSec, expiresAtSec := expiresAtSec }
    else e
  { db with resourceCache := db.resourceCache.map upd }

/-- The command-line flags read by `FetchResource` (fetcher.go), with the
source defaults. -/
structure FetcherConfig where
  resourceRateLimitSec : Int := 90
  defaultResourceExpirationSec : Int := 120
deriving Repr, DecidableEq

/-- The default flag values. -/
def defaultFetcherConfig : FetcherConfig := {}

/-- fetcher.go `FetchOptions`.  `doNotSendIfNoneMatchHeader` and
`doNotSendIfModifiedSinceHeader` only shape outbound request headers and
`doNotSaveToCache` is never read by the source; they are carried for
fidelity but do not influence the modelled state. -/
structure FetchOptions where
  now : Int
  skipCache : Bool := false
  ignoreRateLimiting : Bool := false
  doNotSendIfNoneMatchHeader : Bool := false
  doNotSendIfModifiedSinceHeader : Bool := false
  doNotSaveToCache : Bool := false
deriving Repr, DecidableEq

/-- A completed HTTP response as observed by `FetchResource`.
`expires`: `none` = header absent or empty; `some none` = header present but
`time.Parse` fails; `some (some t)` = header parses to Unix time `t`.
`cacheControlMaxAge`: `none` = header absent or empty; `some none` = header
present but `Sscanf "max-age=%d"` fails; `some (some n)` = `max-age=n`.
`etag`: `none` = header absent or empty. -/
structure HttpResponse where
  statusCode : Int
  expires : Option (Option Int) := none
  cacheControlMaxAge : Option (Option Int) := none
  etag : Option String := none
  body : String := ""
deriving Repr, DecidableEq

/-- Error outcomes of `FetchResource` (fetcher.go `ErrRateLimited`,
`ErrFetchInternal`, the transport error returned by `http.Client.Do`, the
`resource fetch failed (%d)` error, and the wrapped storage error
`cannot load latest fetch_attempt: %s` returned at line 287). -/
inductive FetchError where
  | storage (msg : String)
  | rateLimited
  | fetchInternal
  | transport (msg : String)
  | fetchFailed (status : Int)
deriving Repr, DecidableEq

/-- Result value of `FetchResource`.  `panicNilDeref` models the Go runtime
panic that line 300 would raise if `lfa` were `nil` when `lfa.FetchSec` is
dereferenced; the branch is kept for fidelity to the source text but is
unreachable in the program, because `lastFetchAttempt` can only return
`(nil, nil)` from a successful query of the missing `fetch_attemps`
table. -/
inductive FetchOutcome where
  | ok (body : String)
  | error (e : FetchError)
  | panicNilDeref
deriving Repr, DecidableEq

/-- State-passing result of one `FetchResource` call: the outcome, the
crawler database after the call, and the number of network calls issued. -/
structure FetchResult where
  outcome : FetchOutcome
  db : CrawlerDb
  networkCalls : Nat
deriving Repr, DecidableEq

/-- The Unix-seconds value of Go's zero `time.Time` (January 1, year 1 UTC),
which `time.Parse` returns alongside a non-nil error. -/
def goZeroTimeUnix : Int := -62135596800

/-- fetcher.go lines 346-364: derivation of `resourceExpiresAt` for a
completed response.  Start from `now + default_resource_expiration_sec`.
The `Expires` branch reproduces the source as written: the check is
`if err != nil`, so a FAILED parse assigns `exprTime` (the zero time) and a
successful parse only logs and discards the value.  A parseable
`Cache-Control: max-age=N` then overwrites with `now + N`. -/
def computeResourceExpiresAt (now : Int) (cfg : FetcherConfig)
    (resp : HttpResponse) : Int :=
  let afterDefault := now + cfg.defaultResourceExpirationSec
  let afterExpires :=
    match resp.expires with
    | none => afterDefault
    | some none => goZeroTimeUnix
    | some (some _) => afterDefault
  match resp.cacheControlMaxAge with
  | none => afterExpires
  | some none => afterExpires
  | some (some ageSec) => now + ageSec

/-- fetcher.go lines 346-407: processing after the status-code guard
(expiry derivation, the 304 refresh-and-return-cached path, and the 200
read-body-and-insert path).  In the source this code is unreachable: the
guard at line 342 (`resp.StatusCode != 200 || resp.StatusCode != 304`) is
true for every status.  It is embedded for fidelity. -/
def handleCompletedResponse (url : String) (db : CrawlerDb)
    (opts : FetchOptions) (cfg : FetcherConfig) (resp : HttpResponse)
    (cacheEntry : Option ResourceCacheEntry) : FetchResult :=
  let resourceExpiresAt := computeResourceExpiresAt opts.now cfg resp
  if resp.statusCode = 304 then
    match cacheEntry with
    | none => { outcome := .error .fetchInternal, db := db, networkCalls := 1 }
    | some ce =>
      { outcome := .ok ce.data,
        db := updateResourceCacheEntry ce.resourceCacheId opts.now
          resourceExpiresAt db,
        networkCalls := 1 }
  else
    let newEntry : ResourceCacheEntry :=
      { resourceCacheId := 0, url := url, fetchSec := opts.now,
        expiresAtSec := resourceExpiresAt, etag := resp.etag,
        data := resp.body }
    { outcome := .ok resp.body,
      db := insertResourceCacheEntry newEntry db,
      networkCalls := 1 }

/-- fetcher.go lines 305-344: issue the GET (the `net` oracle), record one
`fetch_attempts` row unconditionally once the call completes, then apply the
status-code guard exactly as written in the source:
`resp.StatusCode != 200 || resp.StatusCode != 304`, a condition that holds
for every status code, so every completed response returns the
`resource fetch failed` error. -/
def networkFetch (url : String) (db : CrawlerDb) (opts : FetchOptions)
    (cfg : FetcherConfig) (net : Except String HttpResponse)
    (cacheEntry : Option ResourceCacheEntry) : FetchResult :=
  match net with
  | .error msg => { outcome := .error (.transport msg), db := db, networkCalls := 1 }
  | .ok resp =>
    let db1 := insertFetchAttempt
      { url := url, fetchSec := opts.now, statusCode := resp.statusCode } db
    if resp.statusCode ≠ 200 ∨ resp.statusCode ≠ 304 then
      { outcome := .error (.fetchFailed resp.statusCode), db := db1,
        networkCalls := 1 }
    else
      handleCompletedResponse url db1 opts cfg resp cacheEntry

/-- fetcher.go lines 284-303 (the `ACTUAL_FETCH` label): load the last
fetch attempt; on a query error return the wrapped storage error
(line 287: `cannot load latest fetch_attempt: %s`) — which is what every
call takes, since the queried `fetch_attemps` table does not exist — then
the rate-limit guard exactly as written:
`!opts.IgnoreRateLimiting && lfa.FetchSec.Add(window).Before(opts.Now)`
(a condition that is both inverted and, like everything below it,
unreachable in the program; were it reached with no attempt row, the `nil`
dereference of `lfa` would panic). -/
def actualFetch (url : String) (db : CrawlerDb) (opts : FetchOptions)
    (cfg : FetcherConfig) (net : Except String HttpResponse)
    (cacheEntry : Option ResourceCacheEntry) : FetchResult :=
  match lastFetchAttempt url db with
  | .error msg =>
    { outcome := .error (.storage ("cannot load latest fetch_attempt: " ++ msg)),
      db := db, networkCalls := 0 }
  | .ok lfaOpt =>
    if opts.ignoreRateLimiting then
      networkFetch url db opts cfg net cacheEntry
    else
      match lfaOpt with
      | none => { outcome := .panicNilDeref, db := db, networkCalls := 0 }
      | some lfa =>
        if lfa.fetchSec + cfg.resourceRateLimitSec < opts.now then
          { outcome := .error .rateLimited, db := db, networkCalls := 0 }
        else
          networkFetch url db opts cfg net cacheEntry

/-- fetcher.go `FetchResource` (lines 251-408).  The `goto ACTUAL_FETCH`
control flow is expressed as calls to `actualFetch`, passing the cache
entry in scope at the jump (`none` on the `SkipCache` and no-entry paths). -/
def FetchResource (url : String) (db : CrawlerDb) (opts : FetchOptions)
    (cfg : FetcherConfig) (net : Except String HttpResponse) : FetchResult :=
  if opts.skipCache then
    actualFetch url db opts cfg net none
  else
    match latestResourceCacheEntry url db with
    | none => actualFetch url db opts cfg net none
    | some ce =>
      if opts.now < ce.expiresAtSec then
        { outcome := .ok ce.data, db := db, networkCalls := 0 }
      else
        actualFetch url db opts cfg net (some ce)

/-! Orchestrator model (crawler.go, the variant with `CrawlStats`).
`CrawlStats` itself (mutex-guarded counters and wall-clock times, crawler.go
lines 583-665) only aggregates log counters; no modelled state depends on
it and it is omitted.  `json.Unmarshal` of the manifest body is abstracted
as an oracle argument `parse : String → Except String ManifestFile`. -/

/-- Go `strings.ToUpper` restricted to the ASCII fragment exercised by the
two-letter jurisdiction codes (crawler.go line 820 `strings.ToUpper`). -/
def goToUpper (s : String) : String :=
  String.mk (s.data.map Char.toUpper)

/-- The entries of the `StateById` map literal (crawler.go lines 501-559),
in source order. -/
def stateList : List (String × Nat) :=
  [("AL", 1), ("AK", 2), ("AZ", 3), ("AR", 4), ("CA", 5), ("CO", 6),
   ("CT", 7), ("DE", 8), ("DC", 9), ("FL", 10), ("GA", 11), ("HI", 12),
   ("ID", 13), ("IL", 14), ("IN", 15), ("IA", 16), ("KS", 17), ("KY", 18),
   ("LA", 19), ("ME", 20), ("MD", 21), ("MA", 22), ("MI", 23), ("MN", 24),
   ("MS", 25), ("MO", 26), ("MT", 27), ("NE", 28), ("NV", 29), ("NH", 30),
   ("NJ", 31), ("NM", 32), ("NY", 33), ("NC", 34), ("ND", 35), ("OH", 36),
   ("OK", 37), ("OR", 38), ("PA", 39), ("RI", 40), ("SC", 41), ("SD", 42),
   ("TN", 43), ("TX", 44), ("UT", 45), ("VT", 46), ("VA", 47), ("WA", 48),
   ("WV", 49), ("WI", 50), ("WY", 51), ("AS", 52), ("GU", 53), ("MP", 54),
   ("PR", 55), ("VI", 56), ("UM", 57)]

/-- Association-list lookup modelling a Go map read `m[k]` with its `ok`
flag. -/
def lookupState : List (String × Nat) → String → Option Nat
  | [], _ => none
  | (k, v) :: rest, s => if s = k then some v else lookupState rest s

/-- crawler.go `StateById`: the fixed 57-entry state/territory code map. -/
def StateById (s : String) : Option Nat :=
  lookupState stateList s

/-- crawler.go `ManifestFileOutputExtension`: the `extension` JSON object
(list of jurisdiction-state annotations). -/
structure ManifestFileOutputExtension where
  state : List String
deriving Repr, DecidableEq

/-- crawler.go `ManifestFileOutput`: one output descriptor of a manifest
file. -/
structure ManifestFileOutput where
  fileType : String
  url : String
  extension : ManifestFileOutputExtension
deriving Repr, DecidableEq

/-- crawler.go `ManifestFile`: the parsed manifest document. -/
structure ManifestFile where
  transactionTime : String
  request : String
  output : List ManifestFileOutput
deriving Repr, DecidableEq

/-- Row of the `manifests` table of the output database. -/
structure ManifestRow where
  manifestId : Int
  url : String
  contents : String
deriving Repr, DecidableEq

/-- Row of one of the leaf tables (`locations` / `schedules` / `slots`) of
the output database; `tableName` records which table the row was inserted
into. -/
structure LeafRow where
  leafId : Int
  tableName : String
  url : String
  manifestId : Int
  contents : String
deriving Repr, DecidableEq

/-- Row of one of the state join tables (`location_state` /
`schedule_state` / `slot_state`). -/
structure JoinRow where
  tableName : String
  fkColumn : String
  fkValue : Int
  stateId : Nat
deriving Repr, DecidableEq

/-- The output database written by the orchestrator (`OutputSchema`,
crawler.go lines 325-498).  All `contents` columns are `TEXT NOT NULL`. -/
structure OutputDb where
  manifests : List ManifestRow
  leafRows : List LeafRow
  joinRows : List JoinRow
deriving Repr, DecidableEq

/-- The empty output database, as produced by `OpenOutput`. -/
def emptyOutputDb : OutputDb := { manifests := [], leafRows := [], joinRows := [] }

/-- Number of rows currently in the leaf table named `t`; the sqlite
`LastInsertId` of an insert into `t` is this count + 1 (rows are never
deleted). -/
def leafTableCount (db : OutputDb) (t : String) : Nat :=
  (db.leafRows.filter (fun r => r.tableName = t)).length

/-- A fetcher function (crawler.go `FetcherFn`), modelled as a pure oracle
from URL to body-or-error. -/
abbrev FetcherFn := String → Except String String

/-- crawler.go `CrawlLeafFileOptions` (`Output` and `Stats` are carried as
explicit state / omitted). -/
structure CrawlLeafFileOptions where
  fileInfo : ManifestFileOutput
  manifestId : Int
  fileTable : String
  stateJoinTable : String
  stateJoinTableFK : String
  fetcher : FetcherFn

/-- crawler.go lines 819-832: the jurisdiction-annotation loop of
`CrawlLeafFile`.  Each annotation is uppercased and looked up in
`StateById`; a missing code is logged and skipped (`continue`), a matching
code inserts one join-table row. -/
def insertStateRows (opts : CrawlLeafFileOptions) (leafFileId : Int) :
    List String → OutputDb → OutputDb
  | [], db => db
  | s :: rest, db =>
    match StateById (goToUpper s) with
    | none => insertStateRows opts leafFileId rest db
    | some stateId =>
      insertStateRows opts leafFileId rest
        { db with joinRows := db.joinRows ++
            [{ tableName := opts.stateJoinTable,
               fkColumn := opts.stateJoinTableFK,
               fkValue := leafFileId, stateId := stateId }] }

/-- crawler.go `CrawlLeafFile` (lines 801-835): fetch the leaf URL; on
fetch error return the error without touching the output database;
otherwise insert one leaf row (contents = fetched body, `NOT NULL`) and
then process the jurisdiction annotations. -/
def CrawlLeafFile (opts : CrawlLeafFileOptions) (db : OutputDb) :
    Except String OutputDb :=
  match opts.fetcher opts.fileInfo.url with
  | .error e => .error e
  | .ok body =>
    let leafFileId : Int := leafTableCount db opts.fileTable + 1
    let db1 := { db with leafRows := db.leafRows ++
        [{ leafId := leafFileId, tableName := opts.fileTable,
           url := opts.fileInfo.url, manifestId := opts.manifestId,
           contents := body }] }
    .ok (insertStateRows opts leafFileId opts.fileInfo.extension.state db1)

/-- crawler.go lines 725-768: the per-descriptor fan-out loop of
`CrawlManifest`.  String dispatch on the descriptor's file type selects the
leaf table and join table; a `CrawlLeafFile` error is logged and the loop
continues with the next descriptor; an unknown file type is logged and
skipped. -/
def crawlOutputs (manifestId : Int) (fetchFn : FetcherFn) :
    List ManifestFileOutput → OutputDb → OutputDb
  | [], db => db
  | o :: rest, db =>
    let db1 :=
      if o.fileType = "Location" then
        match CrawlLeafFile
          { fileInfo := o, manifestId := manifestId, fileTable := "locations",
            stateJoinTable := "location_state", stateJoinTableFK := "location_id",
            fetcher := fetchFn } db with
        | .error _ => db
        | .ok d => d
      else if o.fileType = "Schedule" then
        match CrawlLeafFile
          { fileInfo := o, manifestId := manifestId, fileTable := "schedules",
            stateJoinTable := "schedule_state", stateJoinTableFK := "schedule_id",
            fetcher := fetchFn } db with
        | .error _ => db
        | .ok d => d
      else if o.fileType = "Slot" then
        match CrawlLeafFile
          { fileInfo := o, manifestId := manifestId, fileTable := "slots",
            stateJoinTable := "slot_state", stateJoinTableFK := "slot_id",
            fetcher := fetchFn } db with
        | .error _ => db
        | .ok d => d
      else db
    crawlOutputs manifestId fetchFn rest db1

/-- crawler.go `CrawlManifest` (lines 700-771): fetch the manifest body (on
error, return it to the caller); insert one `manifests` row; parse the body
(on error, return it — the manifest row stays); fan out over the output
descriptors.  Leaf failures never escape to the caller. -/
def CrawlManifest (manifestUrl : String) (db : OutputDb)
    (fetchFn : FetcherFn) (parse : String → Except String ManifestFile) :
    Except String OutputDb :=
  match fetchFn manifestUrl with
  | .error e => .error e
  | .ok manifestBody =>
    let manifestId : Int := db.manifests.length + 1
    let db1 := { db with manifests := db.manifests ++
        [{ manifestId := manifestId, url := manifestUrl,
           contents := manifestBody }] }
    match parse manifestBody with
    | .error e => .error e
    | .ok mf => .ok (crawlOutputs manifestId fetchFn mf.output db1)

/-- fetcher.go `ManifestFetch`: a row of the `manifest_fetches` table
(times as Unix seconds, `sql.NullInt64` / `sql.NullString` as `Option`). -/
structure ManifestFetch where
  manifestFetchId : Int
  url : String
  knownManifestId : Int
  readSec : Int
  fetchStatusCode : Int
  pollingHintSec : Option Int
  contents : Option String
deriving Repr, DecidableEq

/-- Modelled from the spec: the method `ManifestFetch.ShouldFetchManifest`
is called from crawl.go line 43 but its definition is not among the source
files (nor is `KnownManifest.LastManifestFetch`).  Spec section 4.2:
"`ShouldFetchManifest(manifest, now) → bool`: true unless a prior
`ManifestFetch` exists whose `readAt + (pollingHintSec or 180s default)` is
still after `now`."  `prior = none` models the absence of any prior
manifest fetch row. -/
def ShouldFetchManifest (prior : Option ManifestFetch) (now : Int) : Bool :=
  match prior with
  | none => true
  | some mf => !(decide (now < mf.readSec + mf.pollingHintSec.getD 180))

/-! Concrete scenario data used by the claim theorems. -/

/-- Database with one prior fetch attempt on `"u"` at t = 1000 and one
stale cache entry for `"u"` (expires at t = 1005). -/
def staleCacheDb : CrawlerDb :=
  { fetchAttempts := [{ url := "u", fetchSec := 1000, statusCode := 200 }],
    resourceCache := [{ resourceCacheId := 1, url := "u", fetchSec := 1000,
                        expiresAtSec := 1005, etag := some "etag-1",
                        data := "old-body" }] }

/-- Database with one prior fetch attempt on `"u"` at t = 1000 and an empty
resource cache. -/
def noCacheDb : CrawlerDb :=
  { fetchAttempts := [{ url := "u", fetchSec := 1000, statusCode := 200 }],
    resourceCache := [] }

/-- Database with a fresh cache entry for `"u"` (expires at t = 2000). -/
def freshCacheDb : CrawlerDb :=
  { fetchAttempts := [],
    resourceCache := [{ resourceCacheId := 1, url := "u", fetchSec := 1000,
                        expiresAtSec := 2000, etag := none,
                        data := "fresh-data" }] }

/-- The completely empty crawler database. -/
def emptyCrawlerDb : CrawlerDb := { fetchAttempts := [], resourceCache := [] }

/-- Fetch oracle of the four-descriptor crawl scenario: the manifest and
three leaf URLs succeed, the schedule URL fails with a transport error. -/
def crawlScenarioFetch : FetcherFn := fun u =>
  if u = "https://ex.com/manifest.json" then .ok "manifest-body"
  else if u = "https://ex.com/loc1.ndjson" then .ok "loc1-body"
  else if u = "https://ex.com/loc2.ndjson" then .ok "loc2-body"
  else if u = "https://ex.com/sched.ndjson" then .error "connection refused"
  else if u = "https://ex.com/slot.ndjson" then .ok "slot-body"
  else .error "unknown url"

/-- The parsed manifest of the four-descriptor crawl scenario: 2 Location,
1 Schedule, 1 Slot descriptors, no jurisdiction annotations. -/
def crawlScenarioManifest : ManifestFile :=
  { transactionTime := "2021-03-01T00:00:00Z",
    request := "https://ex.com/manifest.json",
    output :=
      [{ fileType := "Location", url := "https://ex.com/loc1.ndjson",
         extension := { state := [] } },
       { fileType := "Location", url := "https://ex.com/loc2.ndjson",
         extension := { state := [] } },
       { fileType := "Schedule", url := "https://ex.com/sched.ndjson",
         extension := { state := [] } },
       { fileType := "Slot", url := "https://ex.com/slot.ndjson",
         extension := { state := [] } }] }

/-- Parse oracle of the crawl scenario (models `json.Unmarshal`). -/
def crawlScenarioParse : String → Except String ManifestFile := fun s =>
  if s = "manifest-body" then .ok crawlScenarioManifest
  else .error "invalid JSON"

/-! Helper lemmas. -/

/-- Keys of an association list that are `goToUpper`-fixed stay fixed under
a successful lookup. -/
theorem lookupState_key_fixed :
    ∀ (l : List (String × Nat)), (∀ p ∈ l, goToUpper p.1 = p.1) →
      ∀ (s : String) (v : Nat), lookupState l s = some v → goToUpper s = s := by
  intro l
  induction l with
  | nil =>
    intro _ s v h
    simp [lookupState] at h
  | cons p rest ih =>
    intro hall s v h
    obtain ⟨k, w⟩ := p
    by_cases hs : s = k
    · subst hs
      exact hall ⟨s, w⟩ (by simp)
    · rw [lookupState, if_neg hs] at h
      exact ih (fun q hq => hall q (by simp [hq])) s v h

/-- Every key of the `StateById` map is a two-letter uppercase code, hence
fixed by `goToUpper`. -/
theorem stateById_key_fixed (s : String) (v : Nat)
    (h : StateById s = some v) : goToUpper s = s :=
  lookupState_key_fixed stateList (by decide) s v h

/-- Every call of `FetchResource` that reaches `ACTUAL_FETCH` returns the
wrapped storage error from the broken `fetch_attemps` SELECT, with no
network call and no database write, regardless of the rate-limit options,
the network oracle and the cache entry in scope. -/
theorem actualFetch_storage_error (url : String) (db : CrawlerDb)
    (opts : FetchOptions) (cfg : FetcherConfig)
    (net : Except String HttpResponse) (ce : Option ResourceCacheEntry) :
    actualFetch url db opts cfg net ce =
      { outcome := .error (.storage
          "cannot load latest fetch_attempt: no such table: fetch_attemps"),
        db := db, networkCalls := 0 } := rfl

/-- `MA` is in the state map with id 22. -/
theorem stateById_MA : StateById (goToUpper "MA") = some 22 := by decide

/-- `ZZ` is not in the state map. -/
theorem stateById_ZZ : StateById (goToUpper "ZZ") = none := by decide

/-! Claim theorems. -/

/-- C1: the claim states that `FetchResource` fails with `RateLimited`
exactly when `now − lastAttempt.fetchAt < rateLimitWindow`, with a
stale-cache second call inside the window rate limited and no network call
issued.  The program never returns `RateLimited` at all: every stale-cache
call fails at fetcher.go line 287 with the storage error from the
`fetch_attemps` SELECT (the table does not exist), before the rate-limit
guard — which is moreover inverted as written
(`lfa.FetchSec.Add(window).Before(opts.Now)`).  With the recorded attempt
at t = 1000, both the call at `now = 1010` (inside the 90 s window, where
the claim demands `RateLimited`) and the call at `now = 1100` (outside
the window, where the claim demands a fetch) return the storage error with
zero network calls. -/
theorem C1_rate_limited_never_returned :
    FetchResource "u" staleCacheDb { now := 1010 } defaultFetcherConfig
        (.ok { statusCode := 200, body := "new" }) =
      { outcome := .error (.storage
          "cannot load latest fetch_attempt: no such table: fetch_attemps"),
        db := staleCacheDb, networkCalls := 0 } ∧
    FetchResource "u" staleCacheDb { now := 1100 } defaultFetcherConfig
        (.ok { statusCode := 200, body := "new" }) =
      { outcome := .error (.storage
          "cannot load latest fetch_attempt: no such table: fetch_attemps"),
        db := staleCacheDb, networkCalls := 0 } := by
  decide

/-- C2: the claim states that a completed response fails iff its status is
neither 200 nor 304, with a 200 returning the new body and a 304 the
cached body.  In the program no response ever completes inside
`FetchResource`: every cache-miss call fails at fetcher.go line 287 with
the storage error from the `fetch_attemps` SELECT before the GET is
issued, so a call that would receive a 200 response with body `"hello"`
returns the storage error, issues zero network calls and writes neither an
attempt row nor a cache entry (and even on the dead completed-response
path, the guard at line 342 is true for every status, 200 and 304
included). -/
theorem C2_storage_error_before_any_response :
    FetchResource "u" noCacheDb { now := 1010 } defaultFetcherConfig
        (.ok { statusCode := 200, etag := some "e2", body := "hello" }) =
      { outcome := .error (.storage
          "cannot load latest fetch_attempt: no such table: fetch_attemps"),
        db := noCacheDb, networkCalls := 0 } := by
  decide

/-- C3: with `SkipCache = false`, a cache entry for the URL, and
`now < expiresAt`, `FetchResource` returns the stored body, issues no
network call, and leaves the database unchanged. -/
theorem C3_fresh_cache_hit (url : String) (db : CrawlerDb)
    (opts : FetchOptions) (cfg : FetcherConfig)
    (net : Except String HttpResponse) (ce : ResourceCacheEntry)
    (hskip : opts.skipCache = false)
    (hce : latestResourceCacheEntry url db = some ce)
    (hfresh : opts.now < ce.expiresAtSec) :
    FetchResource url db opts cfg net =
      { outcome := .ok ce.data, db := db, networkCalls := 0 } := by
  simp [FetchResource, hskip, hce, hfresh]

/-- C3 witness: a concrete fresh-cache hit. -/
theorem C3_fresh_cache_hit_witness :
    FetchResource "u" freshCacheDb { now := 1002 } defaultFetcherConfig
        (.ok { statusCode := 200, body := "x" }) =
      { outcome := .ok "fresh-data", db := freshCacheDb, networkCalls := 0 } :=
  C3_fresh_cache_hit "u" freshCacheDb { now := 1002 } defaultFetcherConfig
    (.ok { statusCode := 200, body := "x" })
    { resourceCacheId := 1, url := "u", fetchSec := 1000,
      expiresAtSec := 2000, etag := none, data := "fresh-data" }
    rfl (by decide) (by decide)

/-- C9: for every URL with no recorded fetch attempt whose call does not
hit the fresh-cache fast path, `FetchResource` completes and returns an
error value — the wrapped storage error of fetcher.go line 287 — and the
rate-limit decision step never faults on the absent last-attempt record:
`lastFetchAttempt` can never return a successful empty read `(nil, nil)`,
because its SELECT targets the missing `fetch_attemps` table and errors
first, so the call returns before the dereference at line 300. -/
theorem C9_absent_attempt_completes (url : String) (db : CrawlerDb)
    (opts : FetchOptions) (cfg : FetcherConfig)
    (net : Except String HttpResponse)
    (hattempt : db.fetchAttempts.filter (fun a => a.url = url) = [])
    (hmiss : ¬ (opts.skipCache = false ∧ ∃ ce,
        latestResourceCacheEntry url db = some ce ∧
        opts.now < ce.expiresAtSec)) :
    FetchResource url db opts cfg net =
      { outcome := .error (.storage
          "cannot load latest fetch_attempt: no such table: fetch_attemps"),
        db := db, networkCalls := 0 } := by
  by_cases hskip : opts.skipCache = true
  · simp [FetchResource, hskip, actualFetch_storage_error]
  · have hskip' : opts.skipCache = false := by
      simpa using hskip
    cases hce : latestResourceCacheEntry url db with
    | none => simp [FetchResource, hskip', hce, actualFetch_storage_error]
    | some ce =>
      have hstale : ¬ opts.now < ce.expiresAtSec := fun hlt =>
        hmiss ⟨hskip', ce, hce, hlt⟩
      simp [FetchResource, hskip', hce, hstale, actualFetch_storage_error]

/-- C9 witness: the first-ever fetch of a URL on the empty database
completes with the storage error and no network call. -/
theorem C9_absent_attempt_completes_witness :
    FetchResource "u" emptyCrawlerDb { now := 5 } defaultFetcherConfig
        (.ok { statusCode := 200, body := "b" }) =
      { outcome := .error (.storage
          "cannot load latest fetch_attempt: no such table: fetch_attemps"),
        db := emptyCrawlerDb, networkCalls := 0 } :=
  C9_absent_attempt_completes "u" emptyCrawlerDb { now := 5 }
    defaultFetcherConfig (.ok { statusCode := 200, body := "b" })
    rfl (by simp [latestResourceCacheEntry, emptyCrawlerDb])

/-- C5: the claim states the expiry precedence default < `Expires` <
`Cache-Control: max-age`, with `max-age=60` at time T stored as
`expiresAt = T+60`, and a parseable `Expires` header alone stored as the
header's time.  In the program neither happens: (1) a call that would
receive a 200 carrying `max-age=60` fails at fetcher.go line 287 with the
storage error from the `fetch_attemps` SELECT before the GET, so no
response is received and no `expiresAt` is ever computed or stored (and
the status guard at line 342 would fail every completed response anyway);
(2) even in the doubly-unreachable expiry derivation, the `Expires` check
at line 350 is inverted (`if err != nil` keeps the parsed time), so a
response whose `Expires` header parses to 5000 still yields the default
`now + 120`, not 5000. -/
theorem C5_expiry_never_stored :
    FetchResource "u" noCacheDb { now := 1000 } defaultFetcherConfig
        (.ok { statusCode := 200, cacheControlMaxAge := some (some 60),
               body := "b" }) =
      { outcome := .error (.storage
          "cannot load latest fetch_attempt: no such table: fetch_attemps"),
        db := noCacheDb, networkCalls := 0 } ∧
    computeResourceExpiresAt 1000 defaultFetcherConfig
        { statusCode := 200, expires := some (some 5000), body := "b" } = 1120 ∧
    (1120 : Int) ≠ 5000 := by
  decide

/-- C6: the claim states that a 304 response refreshes the cached entry's
`fetchAt`/`expiresAt` in place and returns the previously cached body.  In
the program no 304 response can ever be received: the revalidation call
fails at fetcher.go line 287 with the storage error from the
`fetch_attemps` SELECT before the conditional GET is issued, so a call
that would receive a 304 returns the storage error, makes zero network
calls and leaves the cache row's `fetchAt`/`expiresAt` untouched (the
refresh at lines 366-382 is further dead behind the always-true status
guard at line 342, which fails status 304 too). -/
theorem C6_no_304_refresh :
    FetchResource "u" staleCacheDb { now := 1010 } defaultFetcherConfig
        (.ok { statusCode := 304, body := "" }) =
      { outcome := .error (.storage
          "cannot load latest fetch_attempt: no such table: fetch_attemps"),
        db := staleCacheDb, networkCalls := 0 } ∧
    staleCacheDb.resourceCache =
      [{ resourceCacheId := 1, url := "u", fetchSec := 1000,
         expiresAtSec := 1005, etag := some "etag-1",
         data := "old-body" }] := by
  decide

/-- C7: `ShouldFetchManifest` is true when no prior manifest fetch exists,
and after a fetch recorded with `pollingHintSec = 300` it is true exactly
when `now ≥ readAt + 300` (equivalently false exactly when
`now < readAt + 300`). -/
theorem C7_should_fetch_polling_hint (mf : ManifestFetch) (now : Int)
    (hp : mf.pollingHintSec = some 300) :
    ShouldFetchManifest none now = true ∧
    (ShouldFetchManifest (some mf) now = true ↔ mf.readSec + 300 ≤ now) ∧
    (ShouldFetchManifest (some mf) now = false ↔ now < mf.readSec + 300) := by
  simp [ShouldFetchManifest, hp]

/-- C7 witness: a manifest fetch read at t = 100 with a 300 s polling hint,
queried at t = 400. -/
theorem C7_should_fetch_polling_hint_witness :
    ShouldFetchManifest none 400 = true ∧
    (ShouldFetchManifest
        (some { manifestFetchId := 1, url := "m", knownManifestId := 1,
                readSec := 100, fetchStatusCode := 200,
                pollingHintSec := some 300, contents := none }) 400 = true ↔
      (100 : Int) + 300 ≤ 400) ∧
    (ShouldFetchManifest
        (some { manifestFetchId := 1, url := "m", knownManifestId := 1,
                readSec := 100, fetchStatusCode := 200,
                pollingHintSec := some 300, contents := none }) 400 = false ↔
      (400 : Int) < 100 + 300) :=
  C7_should_fetch_polling_hint
    { manifestFetchId := 1, url := "m", knownManifestId := 1,
      readSec := 100, fetchStatusCode := 200,
      pollingHintSec := some 300, contents := none } 400 rfl

/-- C8: for a successfully fetched leaf descriptor annotated
`["MA", "ZZ"]`, `CrawlLeafFile` records exactly one join-table row — for
`MA`, with state id 22 — the unmatched `ZZ` produces no row and does not
abort the descriptor (the leaf row is inserted and the call returns
successfully). -/
theorem C8_ma_zz_single_tag (fi : ManifestFileOutput) (mid : Int)
    (ft sjt fk : String) (f : FetcherFn) (db : OutputDb) (body : String)
    (hf : f fi.url = .ok body)
    (hs : fi.extension.state = ["MA", "ZZ"]) :
    CrawlLeafFile
        { fileInfo := fi, manifestId := mid, fileTable := ft,
          stateJoinTable := sjt, stateJoinTableFK := fk, fetcher := f } db =
      .ok { db with
        leafRows := db.leafRows ++
          [{ leafId := (leafTableCount db ft : Int) + 1, tableName := ft,
             url := fi.url, manifestId := mid, contents := body }],
        joinRows := db.joinRows ++
          [{ tableName := sjt, fkColumn := fk,
             fkValue := (leafTableCount db ft : Int) + 1, stateId := 22 }] } := by
  simp [CrawlLeafFile, hf, hs, insertStateRows, stateById_MA, stateById_ZZ]

/-- C8 witness: a concrete `["MA", "ZZ"]`-annotated location descriptor. -/
theorem C8_ma_zz_single_tag_witness :
    CrawlLeafFile
        { fileInfo := { fileType := "Location", url := "u",
                        extension := { state := ["MA", "ZZ"] } },
          manifestId := 1, fileTable := "locations",
          stateJoinTable := "location_state", stateJoinTableFK := "location_id",
          fetcher := fun _ => .ok "b" } emptyOutputDb =
      .ok { manifests := [],
            leafRows := [{ leafId := 1, tableName := "locations", url := "u",
                           manifestId := 1, contents := "b" }],
            joinRows := [{ tableName := "location_state",
                           fkColumn := "location_id", fkValue := 1,
                           stateId := 22 }] } :=
  C8_ma_zz_single_tag
    { fileType := "Location", url := "u",
      extension := { state := ["MA", "ZZ"] } }
    1 "locations" "location_state" "location_id" (fun _ => .ok "b")
    emptyOutputDb "b" rfl rfl

/-- C10: jurisdiction matching is case-insensitive.  For any annotation
string `s` whose uppercased form is in the state map with id `sid`, a
successfully fetched descriptor annotated `[s]` records exactly one
join-table row carrying `sid`, and the resulting database is identical to
the one produced for the uppercase annotation `[goToUpper s]`. -/
theorem C10_lowercase_annotation (url body s : String) (sid : Nat)
    (mid : Int) (ft sjt fk : String) (f : FetcherFn) (db : OutputDb)
    (hf : f url = .ok body)
    (hs : StateById (goToUpper s) = some sid) :
    CrawlLeafFile
        { fileInfo := { fileType := "Location", url := url,
                        extension := { state := [s] } },
          manifestId := mid, fileTable := ft, stateJoinTable := sjt,
          stateJoinTableFK := fk, fetcher := f } db =
      .ok { db with
        leafRows := db.leafRows ++
          [{ leafId := (leafTableCount db ft : Int) + 1, tableName := ft,
             url := url, manifestId := mid, contents := body }],
        joinRows := db.joinRows ++
          [{ tableName := sjt, fkColumn := fk,
             fkValue := (leafTableCount db ft : Int) + 1, stateId := sid }] } ∧
    CrawlLeafFile
        { fileInfo := { fileType := "Location", url := url,
                        extension := { state := [s] } },
          manifestId := mid, fileTable := ft, stateJoinTable := sjt,
          stateJoinTableFK := fk, fetcher := f } db =
      CrawlLeafFile
        { fileInfo := { fileType := "Location", url := url,
                        extension := { state := [goToUpper s] } },
          manifestId := mid, fileTable := ft, stateJoinTable := sjt,
          stateJoinTableFK := fk, fetcher := f } db := by
  have hfix : goToUpper (goToUpper s) = goToUpper s := by
    rw [stateById_key_fixed (goToUpper s) sid hs]
  constructor
  · simp [CrawlLeafFile, hf, insertStateRows, hs]
  · simp [CrawlLeafFile, hf, insertStateRows, hs, hfix]

/-- C10 witness: the lowercase annotation `"ma"` behaves like `"MA"`
(state id 22). -/
theorem C10_lowercase_annotation_witness :
    (CrawlLeafFile
        { fileInfo := { fileType := "Location", url := "u",
                        extension := { state := ["ma"] } },
          manifestId := 1, fileTable := "locations",
          stateJoinTable := "location_state", stateJoinTableFK := "location_id",
          fetcher := fun _ => .ok "b" } emptyOutputDb =
      .ok { manifests := [],
            leafRows := [{ leafId := 1, tableName := "locations", url := "u",
                           manifestId := 1, contents := "b" }],
            joinRows := [{ tableName := "location_state",
                           fkColumn := "location_id", fkValue := 1,
                           stateId := 22 }] }) ∧
    (CrawlLeafFile
        { fileInfo := { fileType := "Location", url := "u",
                        extension := { state := ["ma"] } },
          manifestId := 1, fileTable := "locations",
          stateJoinTable := "location_state", stateJoinTableFK := "location_id",
          fetcher := fun _ => .ok "b" } emptyOutputDb =
      CrawlLeafFile
        { fileInfo := { fileType := "Location", url := "u",
                        extension := { state := [goToUpper "ma"] } },
          manifestId := 1, fileTable := "locations",
          stateJoinTable := "location_state", stateJoinTableFK := "location_id",
          fetcher := fun _ => .ok "b" } emptyOutputDb) :=
  C10_lowercase_annotation "u" "b" "ma" 22 1 "locations" "location_state"
    "location_id" (fun _ => .ok "b") emptyOutputDb rfl (by decide)

/-- C4 counterexample: on the concrete 2-Location/1-Schedule/1-Slot
manifest whose schedule fetch fails, `CrawlManifest` succeeds with exactly
1 manifest row but only 3 leaf rows linked to it — not the 4 the claim
states — and the failed schedule descriptor produces no row at all (the
output schema declares `contents TEXT NOT NULL`, so a null-contents row
cannot exist). -/
theorem C4_failed_leaf_produces_no_row :
    ((CrawlManifest "https://ex.com/manifest.json" emptyOutputDb
        crawlScenarioFetch crawlScenarioParse).map
      (fun db =>
        (db.manifests.length,
         (db.leafRows.filter (fun r => r.manifestId = 1)).length,
         (db.leafRows.filter
           (fun r => r.url = "https://ex.com/sched.ndjson")).length))) =
      .ok (1, 3, 0) ∧ (3 : Nat) ≠ 4 :=
  ⟨rfl, by decide⟩

/-- C4 (amended): `CrawlManifest` on a manifest listing 2 Location,
1 Schedule and 1 Slot descriptors, where the schedule leaf fetch fails and
the other fetches succeed, records exactly 1 manifest row and exactly 3
leaf rows linked to it; the failed descriptor produces no row, and no
error escapes to the caller of the per-descriptor step. -/
theorem C4_one_failed_leaf_three_rows
    (um u1 u2 u3 u4 bm b1 b2 b4 emsg tt rq : String)
    (f : FetcherFn) (p : String → Except String ManifestFile)
    (hm : f um = .ok bm) (h1 : f u1 = .ok b1) (h2 : f u2 = .ok b2)
    (h3 : f u3 = .error emsg) (h4 : f u4 = .ok b4)
    (hp : p bm = .ok
      { transactionTime := tt, request := rq,
        output :=
          [{ fileType := "Location", url := u1, extension := { state := [] } },
           { fileType := "Location", url := u2, extension := { state := [] } },
           { fileType := "Schedule", url := u3, extension := { state := [] } },
           { fileType := "Slot", url := u4, extension := { state := [] } }] }) :
    CrawlManifest um emptyOutputDb f p =
      .ok { manifests := [{ manifestId := 1, url := um, contents := bm }],
            leafRows :=
              [{ leafId := 1, tableName := "locations", url := u1,
                 manifestId := 1, contents := b1 },
               { leafId := 2, tableName := "locations", url := u2,
                 manifestId := 1, contents := b2 },
               { leafId := 1, tableName := "slots", url := u4,
                 manifestId := 1, contents := b4 }],
            joinRows := [] } := by
  simp [CrawlManifest, hm, hp, crawlOutputs, CrawlLeafFile, h1, h2, h3, h4,
        insertStateRows, emptyOutputDb, leafTableCount]

/-- C4 witness: the amended claim at the concrete crawl scenario. -/
theorem C4_one_failed_leaf_three_rows_witness :
    CrawlManifest "https://ex.com/manifest.json" emptyOutputDb
        crawlScenarioFetch crawlScenarioParse =
      .ok { manifests :=
              [{ manifestId := 1, url := "https://ex.com/manifest.json",
                 contents := "manifest-body" }],
            leafRows :=
              [{ leafId := 1, tableName := "locations",
                 url := "https://ex.com/loc1.ndjson", manifestId := 1,
                 contents := "loc1-body" },
               { leafId := 2, tableName := "locations",
                 url := "https://ex.com/loc2.ndjson", manifestId := 1,
                 contents := "loc2-body" },
               { leafId := 1, tableName := "slots",
                 url := "https://ex.com/slot.ndjson", manifestId := 1,
                 contents := "slot-body" }],
            joinRows := [] } :=
  C4_one_failed_leaf_three_rows "https://ex.com/manifest.json"
    "https://ex.com/loc1.ndjson" "https://ex.com/loc2.ndjson"
    "https://ex.com/sched.ndjson" "https://ex.com/slot.ndjson"
    "manifest-body" "loc1-body" "loc2-body" "slot-body" "connection refused"
    "2021-03-01T00:00:00Z" "https://ex.com/manifest.json"
    crawlScenarioFetch crawlScenarioParse rfl rfl rfl rfl rfl rfl

end SchedulingLinks
